import Mathlib

/-!
Verification of the status reconciliation and redirect engine of the
grants-ui repository (`src/server/status/status-helper.js`) and the
redirect-rule validation (`src/server/common/forms/services/form.js`),
as a shallow embedding in Lean 4.

JavaScript is embedded as follows: strings are `String`, possibly-undefined
values are `Option`, thrown exceptions are `Option`/`Except` `none`/`.error`
results, and the two side effects of the reconciliation path (the session
status write and the GAS status HTTP call) are reified as data: the write
becomes a `PersistAction` value returned by `persistStatus`, and the GAS
call result is an input parameter of type `Except ErrJs String` (the call
itself being recorded by the `gasCalled` flag of `CallbackResult`).
-/

namespace GrantsUi

/-- Splits a character list at every occurrence of the separator character,
keeping empty segments, as the JavaScript `split` with a one-character
separator does (structural recursion so that proofs can evaluate it). -/
def splitOnCharList (c : Char) : List Char → List (List Char)
  | [] => [[]]
  | a :: rest =>
    match splitOnCharList c rest with
    | [] => if a = c then [[], []] else [[a]]
    | seg :: segs => if a = c then [] :: seg :: segs else (a :: seg) :: segs

/-- JavaScript `s.split(',')`: comma-separated segments, empty segments
kept, `''` splitting to `['']`. -/
def jsSplitComma (s : String) : List String :=
  (splitOnCharList ',' s.data).map List.asString

/-- JavaScript `s.trim()`: strips leading and trailing whitespace. -/
def jsTrim (s : String) : String :=
  (((s.data.dropWhile Char.isWhitespace).reverse.dropWhile
      Char.isWhitespace).reverse).asString

/-- JavaScript `s.startsWith(p)`. -/
def jsStartsWith (s p : String) : Bool :=
  p.data.isPrefixOf s.data

/-- A post-submission redirect rule, from `grantRedirectRules.postSubmission`
(JSDoc typedef `RedirectRule` of status-helper.js). -/
structure RedirectRule where
  fromGrantsStatus : String
  gasStatus : String
  toGrantsStatus : String
  toPath : String
deriving DecidableEq, Repr

/-- A pre-submission redirect rule (`grantRedirectRules.preSubmission`
items): only `toPath` is used by the code. -/
structure PreRule where
  toPath : String
deriving DecidableEq, Repr

/-- The `grantRedirectRules` metadata object. -/
structure GrantRedirectRules where
  preSubmission : List PreRule
  postSubmission : List RedirectRule
deriving DecidableEq, Repr

/-- The from-set of a rule in `mapStatusToUrl`:
`new Set((rule.fromGrantsStatus || 'default').split(',').map(s => s.trim()))`.
The JavaScript `||` falls back to `'default'` when the field is the empty
string (falsy). -/
def fromSet (r : RedirectRule) : List String :=
  (jsSplitComma (if r.fromGrantsStatus = "" then "default" else r.fromGrantsStatus)).map
    jsTrim

/-- The gas-set of a rule in `mapStatusToUrl`:
`new Set((rule.gasStatus || 'default').split(',').map(s => s.trim()))`. -/
def gasSet (r : RedirectRule) : List String :=
  (jsSplitComma (if r.gasStatus = "" then "default" else r.gasStatus)).map jsTrim

/-- The predicate passed to `redirectRules.find` in `mapStatusToUrl`:
`fromMatch && gasMatch`. -/
def ruleMatches (fromGrantsStatus gasStatus : String) (r : RedirectRule) : Bool :=
  ((fromSet r).contains fromGrantsStatus || (fromSet r).contains "default") &&
  ((gasSet r).contains gasStatus || (gasSet r).contains "default")

/-- `mapStatusToUrl` of status-helper.js: first matching rule, `none` when the
function would throw `No redirect rule found`. -/
def mapStatusToUrl (fromGrantsStatus gasStatus : String)
    (redirectRules : List RedirectRule) : Option RedirectRule :=
  redirectRules.find? (ruleMatches fromGrantsStatus gasStatus)

/-- The outcome of a reconciliation handler: `h.continue` or
`h.redirect(url).takeover()`. -/
inductive Outcome where
  | cont : Outcome
  | redirect : String → Outcome
deriving DecidableEq, Repr

/-- The session-status write performed by `persistStatus`, reified:
`noop` (no write at all), `setStateCleared` (full session-state rewrite via
`cacheService.setState(request, { applicationStatus: ApplicationStatus.CLEARED })`),
or `updateStatus` (the narrower `updateApplicationStatus(newStatus, key)`
call, which does not touch the session state). -/
inductive PersistAction where
  | noop : PersistAction
  | setStateCleared : PersistAction
  | updateStatus : String → String → PersistAction
deriving DecidableEq, Repr

/-- `persistStatus` of status-helper.js, with the write reified as a
`PersistAction`. `organisationId` is `request.auth.credentials?.sbi`. -/
def persistStatus (newStatus previousStatus organisationId grantId : String) :
    PersistAction :=
  if newStatus = previousStatus then .noop
  else if newStatus = "CLEARED" then .setStateCleared
  else .updateStatus newStatus (organisationId ++ ":" ++ grantId)

/-- `shouldContinueDefault` of status-helper.js. -/
def shouldContinueDefault (gasStatus newStatus previousStatus : String) : Bool :=
  (gasStatus == "AWAITING_AMENDMENTS" && newStatus == "REOPENED" &&
    previousStatus != "SUBMITTED") ||
  (gasStatus == "APPLICATION_WITHDRAWN" && newStatus == "CLEARED" &&
    !(["SUBMITTED", "REOPENED"].contains previousStatus))

/-- The session state as seen by `hasMeaningfulState`: its key list
(`Object.keys(state)`), whether `state.landParcels` is absent or empty
(`!Object.keys(state.landParcels || {}).length`), and the
`applicationStatus` field read by `formsStatusCallback`. -/
structure SessionState where
  keys : List String
  landParcelsEmpty : Bool
  applicationStatus : Option String
deriving DecidableEq, Repr

/-- The `baseStateKeys` set built by `hasMeaningfulState`, including the
farm-payments workaround keys and, when `state.landParcels` is empty or
absent, `landParcels` itself. -/
def baseStateKeys (st : SessionState) : List String :=
  ["$$__referenceNumber", "applicationStatus", "applicant",
   "selectedLandParcel", "payment", "draftApplicationAnnualTotalPence"] ++
  (if st.landParcelsEmpty then ["landParcels"] else [])

/-- `hasMeaningfulState` of status-helper.js. -/
def hasMeaningfulState (st : SessionState) : Bool :=
  st.keys.any (fun k => !((baseStateKeys st).contains k))

/-- The request, as read by the status helpers: `request.params?.slug`,
`request.path`, `request.auth.credentials?.sbi`,
`request.app.model?.def?.metadata?.submission?.grantCode`,
`request.app.model?.def?.metadata?.tasklistId` and
`request.app.model?.def?.metadata?.grantRedirectRules`. -/
structure Request where
  slug : Option String
  path : String
  sbi : String
  grantCode : Option String
  tasklistId : Option String
  rules : Option GrantRedirectRules
deriving DecidableEq, Repr

/-- The page context: `context.state`, `context.paths`,
`context.referenceNumber`. -/
structure Context where
  state : SessionState
  paths : List String
  referenceNumber : String
deriving DecidableEq, Repr

/-- `isFormsStartPage` of status-helper.js: false when the slug or the first
configured path is missing or empty (JavaScript falsy), else compares
`request.path` against the template literal. -/
def isFormsStartPage (req : Request) (ctx : Context) : Bool :=
  match req.slug, ctx.paths.head? with
  | some slug, some startPath =>
      if slug = "" || startPath = "" then false
      else req.path == "/" ++ slug ++ startPath
  | _, _ => false

/-- `isTasklistPage` of status-helper.js:
`request.app.model?.def?.metadata?.tasklistId != null`. -/
def isTasklistPage (req : Request) : Bool :=
  req.tasklistId.isSome

/-- `shouldHandlePreSubmission` of status-helper.js. The JavaScript
`!previousStatus` is true for `undefined` and for the empty string; the
`ApplicationStatus` constants file is not under src: its `CLEARED` and
`REOPENED` values are the strings the spec's enum and the code's own string
literals use. -/
def shouldHandlePreSubmission (previousStatus : Option String) : Bool :=
  previousStatus.getD "" == "" || previousStatus == some "CLEARED" ||
    previousStatus == some "REOPENED"

/-- `buildRedirectUrl` of status-helper.js. -/
def buildRedirectUrl (grantId path : String) : String :=
  if jsStartsWith path "/" then "/" ++ grantId ++ path
  else "/" ++ grantId ++ "/" ++ path

/-- `preSubmissionRedirect` of status-helper.js. The result is `none` when
the JavaScript would throw a TypeError: `grantRedirectRules` undefined or
`preSubmission[0]` undefined. A missing slug is interpolated as the string
`undefined` by the template literal. -/
def preSubmissionRedirect (req : Request) (ctx : Context) : Option Outcome :=
  let grantId := req.slug.getD "undefined"
  match req.rules with
  | none => none
  | some cfg =>
    match cfg.preSubmission.head? with
    | none => none
    | some r =>
      let preSubmissionRedirectUrl :=
        if jsStartsWith r.toPath "/" then "/" ++ grantId ++ r.toPath
        else "/" ++ grantId ++ "/" ++ r.toPath
      if hasMeaningfulState ctx.state && isFormsStartPage req ctx &&
          !(isTasklistPage req) then
        some (.redirect preSubmissionRedirectUrl)
      else
        some .cont

/-- A JavaScript error as observed by `handlePostSubmissionError`: its
optional numeric `status` field and its `message`. -/
structure ErrJs where
  status : Option Nat
  message : String
deriving DecidableEq, Repr

/-- Modelled from the spec: the `statusCodes` constants file
(`src/server/common/constants/status-codes.js`) is not under src; the spec
and the repository's tests identify the not-found code as HTTP 404. -/
def statusCodes_notFound : Nat := 404

/-- The destination computation of `handlePostSubmission` (line
`rule.toPath === agreements.get('baseUrl') ? rule.toPath :
buildRedirectUrl(grantId, rule.toPath)`). -/
def postRedirectUrl (agreementsBase grantId toPath : String) : String :=
  if toPath = agreementsBase then toPath else buildRedirectUrl grantId toPath

/-- `handlePostSubmission` of status-helper.js. The GAS call
`getApplicationStatus` with its `.json()` parse is reified as the
`gasResult` input; an `.error` result is the thrown error propagating to the
caller's catch. A failed `mapStatusToUrl` is the thrown `Error` (which has
no `status` field). The pair carries the outcome and the reified
`persistStatus` write. -/
def handlePostSubmission (agreementsBase : String) (gasResult : Except ErrJs String)
    (req : Request) (previousStatus : String) (rules : Option GrantRedirectRules) :
    Except ErrJs (Outcome × PersistAction) :=
  let grantId := req.slug.getD "undefined"
  match gasResult with
  | .error e => .error e
  | .ok gasStatus =>
    let postSubmissionRules := (rules.map (·.postSubmission)).getD []
    match mapStatusToUrl previousStatus gasStatus postSubmissionRules with
    | none =>
        .error ⟨none, "No redirect rule found for fromGrantsStatus=" ++
          previousStatus ++ " gasStatus=" ++ gasStatus⟩
    | some rule =>
      let act := persistStatus rule.toGrantsStatus previousStatus req.sbi grantId
      if shouldContinueDefault gasStatus rule.toGrantsStatus previousStatus then
        .ok (.cont, act)
      else
        let redirectUrl := postRedirectUrl agreementsBase grantId rule.toPath
        .ok (if req.path = redirectUrl then .cont else .redirect redirectUrl, act)

/-- The result of `handlePostSubmissionError`: the outcome and whether the
failure was logged. -/
structure ErrHandled where
  outcome : Outcome
  logged : Bool
deriving DecidableEq, Repr

/-- `handlePostSubmissionError` of status-helper.js. `none` when the
function itself throws (no fallback rule found by `mapStatusToUrl`). Note
the fallback URL is always `buildRedirectUrl` — the agreements-base-URL
verbatim branch of the success path is absent here. -/
def handlePostSubmissionError (e : ErrJs) (req : Request) (grantId : String)
    (rules : Option GrantRedirectRules) : Option ErrHandled :=
  if e.status = some statusCodes_notFound then
    some ⟨.cont, false⟩
  else
    match mapStatusToUrl "default" "default" ((rules.map (·.postSubmission)).getD []) with
    | none => none
    | some fallbackRule =>
      let fallbackUrl := buildRedirectUrl grantId fallbackRule.toPath
      some ⟨if req.path = fallbackUrl then .cont else .redirect fallbackUrl, true⟩

/-- The observable result of one `formsStatusCallback` run: outcome, the
reified session-status write, whether the GAS client was called, and whether
a redirect failure was logged. -/
structure CallbackResult where
  outcome : Outcome
  persist : PersistAction
  gasCalled : Bool
  logged : Bool
deriving DecidableEq, Repr

/-- `formsStatusCallback` of status-helper.js. `none` when an exception
escapes (missing `grantCode` thrown by `getGrantCode`, a TypeError in
`preSubmissionRedirect`, or a rethrow out of `handlePostSubmissionError`);
the JavaScript falsy test `!grantCode` also fires on the empty string. The
`none` arm of the `previousStatus` match is unreachable (absence is handled
by `shouldHandlePreSubmission`) and continues, as `undefined !== 'SUBMITTED'`
does. -/
def formsStatusCallback (agreementsBase : String) (gasResult : Except ErrJs String)
    (req : Request) (ctx : Context) : Option CallbackResult :=
  match req.slug with
  | none => some ⟨.cont, .noop, false, false⟩
  | some grantId =>
    if grantId = "" then some ⟨.cont, .noop, false, false⟩
    else if (req.grantCode.getD "") = "" then none
    else
      let previousStatus := ctx.state.applicationStatus
      if shouldHandlePreSubmission previousStatus then
        (preSubmissionRedirect req ctx).map (fun o => ⟨o, .noop, false, false⟩)
      else
        match previousStatus with
        | none => some ⟨.cont, .noop, false, false⟩
        | some ps =>
          if ps != "SUBMITTED" then some ⟨.cont, .noop, false, false⟩
          else
            match handlePostSubmission agreementsBase gasResult req ps req.rules with
            | .ok (o, act) => some ⟨o, act, true, false⟩
            | .error e =>
              (handlePostSubmissionError e req grantId req.rules).map
                (fun r => ⟨r.outcome, .noop, true, r.logged⟩)

/-- One pre-submission rule passing the Joi `preSubmissionRuleSchema` of
form.js: a required `toPath` string matching the pattern `^\/.*` (a leading
slash; Joi `string()` also rejects the empty string, which the pattern
subsumes). -/
def preRuleSchemaOk (r : PreRule) : Bool :=
  jsStartsWith r.toPath "/"

/-- One post-submission rule passing the Joi `postSubmissionRuleSchema` of
form.js: the three status fields required non-empty strings and `toPath`
matching `^\/.*`. -/
def postRuleSchemaOk (r : RedirectRule) : Bool :=
  r.fromGrantsStatus != "" && r.gasStatus != "" && r.toGrantsStatus != "" &&
    jsStartsWith r.toPath "/"

/-- `validateGrantRedirectRules` of form.js, over the `preSubmission` and
`postSubmission` lists (missing metadata defaults both to `[]`); an `.error`
is the thrown `Error` with its message theme. -/
def validateGrantRedirectRules (preSubmission : List PreRule)
    (postSubmission : List RedirectRule) : Except String Unit :=
  if !(preSubmission.all preRuleSchemaOk && preSubmission.length == 1) then
    .error "Invalid redirect rules: expected one rule with toPath property"
  else if !(postSubmission.all postRuleSchemaOk) then
    .error "Invalid redirect rules: postSubmission schema violation"
  else if postSubmission.length == 0 then
    .error "Invalid redirect configuration: no postSubmission redirect rules defined"
  else if !(postSubmission.any fun r =>
      r.fromGrantsStatus == "default" && r.gasStatus == "default") then
    .error "Invalid redirect configuration: missing default/default fallback rule in postSubmission"
  else
    .ok ()

/-- Follows the spec's words (for comparison with `ruleMatches`): a rule
matches if its from-set contains the previous status or contains `default`,
and its `gasStatus` field equals the GAS status or is `default` — no
comma-splitting of `gasStatus`. -/
def specRuleMatches (fromGrantsStatus gasStatus : String) (r : RedirectRule) : Bool :=
  ((fromSet r).contains fromGrantsStatus || (fromSet r).contains "default") &&
  (r.gasStatus == gasStatus || r.gasStatus == "default")

/-- Follows the spec's words (for comparison with `hasMeaningfulState`): the
session state contains some field beyond the reference-number/status
bookkeeping fields. -/
def specMeaningfulState (st : SessionState) : Bool :=
  st.keys.any fun k =>
    !(["$$__referenceNumber", "applicationStatus", "applicant"].contains k)

/-- A demonstration rule whose `gasStatus` is a comma-separated list, as the
repository's own test fixtures use (`OFFER_SENT,OFFER_WITHDRAWN,OFFER_ACCEPTED`). -/
def ruleOfferCommas : RedirectRule :=
  ⟨"SUBMITTED", "OFFER_SENT,OFFER_WITHDRAWN,OFFER_ACCEPTED", "SUBMITTED", "/agreement"⟩

/-- A demonstration withdrawn-application rule with a comma-separated
from-set, as in the repository's test fixtures. -/
def ruleWithdrawn : RedirectRule :=
  ⟨"SUBMITTED,REOPENED", "APPLICATION_WITHDRAWN", "CLEARED", "/start"⟩

/-- The universal default/default fallback rule of the test fixtures. -/
def ruleFallback : RedirectRule :=
  ⟨"default", "default", "SUBMITTED", "/confirmation"⟩

/-- The post-submission rule table of the repository's test fixtures,
abridged to the rules the sample runs exercise. -/
def demoRules : List RedirectRule :=
  [ruleWithdrawn, ruleOfferCommas, ruleFallback]

/-- A demonstration request shaped like the repository's test fixture
request (slug `grant-a`, grant code `grant-a-code`, no tasklist). -/
def demoRequest : Request :=
  ⟨some "grant-a", "/grant-a/start", "12345", some "grant-a-code", none,
    some ⟨[⟨"/check-selected-land-actions"⟩], demoRules⟩⟩

/-- A demonstration context shaped like the repository's test fixture
context. -/
def demoContext : Context :=
  ⟨⟨["applicationStatus"], true, some "SUBMITTED"⟩, ["/start", "/confirmation"], "REF-001"⟩

/-- A demonstration context holding a saved answer (the `question` key) with
REOPENED status. -/
def reopenedContext : Context :=
  ⟨⟨["applicationStatus", "question"], true, some "REOPENED"⟩, ["/start", "/confirmation"], "REF-001"⟩

/-!
Theorems. Each claim of the specification review is settled by one theorem
below; corrected claims additionally carry a counterexample theorem
refuting the claim as first stated.
-/

/-- Claim C1, counterexample: the claim describes a matching rule as one
whose `gasStatus` equals the GAS status or is `default`, but the code
comma-splits `gasStatus` exactly as it does `fromGrantsStatus`. On the
repository's own test fixture table, for GAS status `OFFER_SENT` the code
returns the comma-listed offer rule, while the first rule satisfying the
claim's condition is the default/default fallback. -/
theorem mapStatusToUrl_gas_comma_counterexample :
    mapStatusToUrl "SUBMITTED" "OFFER_SENT" demoRules = some ruleOfferCommas ∧
    List.find? (specRuleMatches "SUBMITTED" "OFFER_SENT") demoRules = some ruleFallback ∧
    ruleOfferCommas ≠ ruleFallback := by
  decide

/-- Claim C1, amended: `mapStatusToUrl` returns the first rule in
declaration order whose from-set (comma-separated, trimmed, empty falling
back to `default`) contains the previous status or contains `default`, and
whose gas-set (comma-separated in the same way) contains the GAS status or
contains `default`; any earlier rule satisfying this condition is the one
returned, regardless of later more-specific rules. -/
theorem mapStatusToUrl_first_match (fromStatus gasStatus : String)
    (pre post : List RedirectRule) (r : RedirectRule)
    (hpre : ∀ r' ∈ pre, ruleMatches fromStatus gasStatus r' = false)
    (hr : ruleMatches fromStatus gasStatus r = true) :
    mapStatusToUrl fromStatus gasStatus (pre ++ r :: post) = some r := by
  induction pre with
  | nil =>
    show List.find? (ruleMatches fromStatus gasStatus) ([] ++ r :: post) = some r
    rw [List.nil_append, List.find?_cons_of_pos post hr]
  | cons a as ih =>
    have ha : ruleMatches fromStatus gasStatus a = false := hpre a (List.mem_cons_self a as)
    have hrec := ih fun r' h => hpre r' (List.mem_cons_of_mem a h)
    show List.find? (ruleMatches fromStatus gasStatus) ((a :: as) ++ r :: post) = some r
    rw [List.cons_append, List.find?_cons_of_neg _ (by simp [ha])]
    exact hrec

/-- Witness for the amended claim C1 at the fixture rule table: the
fallback is returned for `(REOPENED, AWAITING_AMENDMENTS)` because neither
earlier rule matches. -/
theorem mapStatusToUrl_first_match_witness :
    mapStatusToUrl "REOPENED" "AWAITING_AMENDMENTS"
      ([ruleWithdrawn, ruleOfferCommas] ++ ruleFallback :: []) = some ruleFallback :=
  mapStatusToUrl_first_match "REOPENED" "AWAITING_AMENDMENTS" [ruleWithdrawn, ruleOfferCommas]
    [] ruleFallback (by decide) (by decide)

/-- Claim C2: for every pair of status strings, if the rule list contains a
rule with `fromGrantsStatus` and `gasStatus` both `default`, then
`mapStatusToUrl` returns a rule and never throws; equivalently, the error
branch is reachable only when no such fallback rule exists. -/
theorem mapStatusToUrl_total (fromStatus gasStatus : String) (rules : List RedirectRule)
    (h : ∃ r ∈ rules, r.fromGrantsStatus = "default" ∧ r.gasStatus = "default") :
    (mapStatusToUrl fromStatus gasStatus rules).isSome = true := by
  obtain ⟨r, hr, h1, h2⟩ := h
  refine List.find?_isSome.mpr ⟨r, hr, ?_⟩
  obtain ⟨f, g, t, p⟩ := r
  simp only at h1 h2
  subst h1; subst h2
  have hd : fromSet ⟨"default", "default", t, p⟩ = ["default"] := rfl
  have hg : gasSet ⟨"default", "default", t, p⟩ = ["default"] := rfl
  simp [ruleMatches, hd, hg]

/-- Witness for claim C2: the fixture table resolves a wholly unknown
status pair. -/
theorem mapStatusToUrl_total_witness :
    (mapStatusToUrl "UNKNOWN_STATUS" "SOMETHING_NEW" demoRules).isSome = true :=
  mapStatusToUrl_total "UNKNOWN_STATUS" "SOMETHING_NEW" demoRules
    ⟨ruleFallback, by decide, rfl, rfl⟩

/-- Claim C3, counterexample: for a non-404 error the fallback destination
is not computed the same way as the success path. With the fallback rule's
`toPath` equal to the agreements base URL `/agreement`, the error path
redirects to `/farm-payments/agreement` (slug-prefixed), while the success
path's computation yields `/agreement` verbatim. -/
theorem handlePostSubmissionError_not_success_path :
    handlePostSubmissionError ⟨none, "server error"⟩
        ⟨some "farm-payments", "/farm-payments/start", "12345", some "code", none, none⟩
        "farm-payments" (some ⟨[⟨"/check"⟩], [⟨"default", "default", "SUBMITTED", "/agreement"⟩]⟩) =
      some ⟨Outcome.redirect "/farm-payments/agreement", true⟩ ∧
    postRedirectUrl "/agreement" "farm-payments" "/agreement" = "/agreement" ∧
    ("/farm-payments/agreement" : String) ≠ "/agreement" := by
  decide

/-- Claim C3, amended: a 404 error yields continue with nothing logged; any
other error is logged, the table is matched with `(default, default)`, and
the fallback destination is computed by always slug-prefixing via
`buildRedirectUrl` (without the success path's verbatim exception for the
agreements base URL); the handler redirects there unless the current path
already equals it, in which case it continues. -/
theorem handlePostSubmissionError_spec (e : ErrJs) (req : Request) (grantId : String)
    (rules : Option GrantRedirectRules) (fb : RedirectRule)
    (hfb : mapStatusToUrl "default" "default" ((rules.map (·.postSubmission)).getD []) = some fb) :
    (e.status = some 404 →
      handlePostSubmissionError e req grantId rules = some ⟨Outcome.cont, false⟩) ∧
    (e.status ≠ some 404 →
      handlePostSubmissionError e req grantId rules =
        some ⟨if req.path = buildRedirectUrl grantId fb.toPath then Outcome.cont
              else Outcome.redirect (buildRedirectUrl grantId fb.toPath), true⟩) := by
  constructor
  · intro h404
    simp [handlePostSubmissionError, h404, statusCodes_notFound]
  · intro hne
    have hne2 : ¬e.status = some statusCodes_notFound := by
      simpa [statusCodes_notFound] using hne
    simp [handlePostSubmissionError, hne2, hfb]

/-- Witness for the amended claim C3: a 500 error on the fixture request is
logged and redirected to the slug-prefixed fallback destination. -/
theorem handlePostSubmissionError_spec_witness :
    handlePostSubmissionError ⟨some 500, "boom"⟩ demoRequest "grant-a" demoRequest.rules =
      some ⟨if demoRequest.path = buildRedirectUrl "grant-a" ruleFallback.toPath then Outcome.cont
            else Outcome.redirect (buildRedirectUrl "grant-a" ruleFallback.toPath), true⟩ :=
  (handlePostSubmissionError_spec ⟨some 500, "boom"⟩ demoRequest "grant-a" demoRequest.rules
    ruleFallback (by decide)).2 (by decide)

/-- Claim C4: `persistStatus` performs no write when the new status equals
the previous one; otherwise `CLEARED` is persisted by the full session-state
rewrite through the cache service, and every other status by the narrower
`updateApplicationStatus` call keyed `organisationId:grantId`, which leaves
the session state untouched. -/
theorem persistStatus_spec (newStatus previousStatus organisationId grantId : String) :
    (newStatus = previousStatus →
      persistStatus newStatus previousStatus organisationId grantId = PersistAction.noop) ∧
    (newStatus ≠ previousStatus → newStatus = "CLEARED" →
      persistStatus newStatus previousStatus organisationId grantId = PersistAction.setStateCleared) ∧
    (newStatus ≠ previousStatus → newStatus ≠ "CLEARED" →
      persistStatus newStatus previousStatus organisationId grantId =
        PersistAction.updateStatus newStatus (organisationId ++ ":" ++ grantId)) := by
  refine ⟨fun h => by simp [persistStatus, h],
    fun h hc => by subst hc; simp [persistStatus, h],
    fun h hc => by simp [persistStatus, h, hc]⟩

/-- Witness for claim C4: a SUBMITTED-to-REOPENED transition uses the
narrow update call with the composite key. -/
theorem persistStatus_spec_witness :
    persistStatus "REOPENED" "SUBMITTED" "12345" "grant-a" =
      PersistAction.updateStatus "REOPENED" "12345:grant-a" :=
  (persistStatus_spec "REOPENED" "SUBMITTED" "12345" "grant-a").2.2 (by decide) (by decide)

/-- Claim C5, counterexample: with previous status REOPENED (and GAS
poised to return AWAITING_AMENDMENTS), the orchestrator does not always
return continue: a request at the start page with meaningful saved state is
redirected to the resume page by the pre-submission guard. -/
theorem formsStatusCallback_reopened_counterexample :
    formsStatusCallback "/agreement" (Except.ok "AWAITING_AMENDMENTS")
      ⟨some "grant-a", "/grant-a/start", "12345", some "grant-a-code", none,
        some ⟨[⟨"/check-selected-land-actions"⟩], demoRules⟩⟩
      ⟨⟨["applicationStatus", "question"], true, some "REOPENED"⟩,
        ["/start", "/confirmation"], "REF-001"⟩ =
      some ⟨Outcome.redirect "/grant-a/check-selected-land-actions",
        PersistAction.noop, false, false⟩ ∧
    Outcome.redirect "/grant-a/check-selected-land-actions" ≠ Outcome.cont := by
  decide

/-- Helper: when the resume-redirect condition of the pre-submission guard
is false, the guard continues. -/
theorem preSubmissionRedirect_cont_of_no_trigger (req : Request) (ctx : Context) (o : Outcome)
    (hcond : (hasMeaningfulState ctx.state && isFormsStartPage req ctx && !isTasklistPage req) = false)
    (h : preSubmissionRedirect req ctx = some o) : o = Outcome.cont := by
  simp only [preSubmissionRedirect] at h
  split at h
  · exact absurd h (by simp)
  · split at h
    · exact absurd h (by simp)
    · rw [hcond] at h
      simp at h
      exact h.symm

/-- Helper: when the resume-redirect condition of the pre-submission guard
holds, the guard redirects to the slug-prefixed resume path taken from the
first configured pre-submission rule. -/
theorem preSubmissionRedirect_redirect_of_trigger (req : Request) (ctx : Context) (o : Outcome)
    (hcond : (hasMeaningfulState ctx.state && isFormsStartPage req ctx && !isTasklistPage req) = true)
    (h : preSubmissionRedirect req ctx = some o) :
    ∃ cfg prule, req.rules = some cfg ∧ cfg.preSubmission.head? = some prule ∧
      o = Outcome.redirect
        (if jsStartsWith prule.toPath "/" then "/" ++ req.slug.getD "undefined" ++ prule.toPath
         else "/" ++ req.slug.getD "undefined" ++ "/" ++ prule.toPath) := by
  simp only [preSubmissionRedirect] at h
  split at h
  · exact absurd h (by simp)
  case h_2 cfg heq =>
    split at h
    · exact absurd h (by simp)
    case h_2 prule heq2 =>
      rw [hcond] at h
      simp at h
      exact ⟨cfg, prule, heq, heq2, h.symm⟩

/-- Claim C5, amended: when the previous portal status is REOPENED the
orchestrator never calls the GAS client and never invokes the
status-persistence write path; it returns the pre-submission guard's
result: continue whenever the guard's resume-redirect condition (meaningful
state, start page, non-tasklist) does not hold, and otherwise a redirect to
the slug-prefixed resume path of the first configured pre-submission
rule. -/
theorem formsStatusCallback_reopened (agreementsBase : String) (gasResult : Except ErrJs String)
    (req : Request) (ctx : Context) (r : CallbackResult)
    (hprev : ctx.state.applicationStatus = some "REOPENED")
    (hres : formsStatusCallback agreementsBase gasResult req ctx = some r) :
    r.persist = PersistAction.noop ∧ r.gasCalled = false ∧
      ((hasMeaningfulState ctx.state && isFormsStartPage req ctx && !isTasklistPage req) = false →
        r.outcome = Outcome.cont) ∧
      ((hasMeaningfulState ctx.state && isFormsStartPage req ctx && !isTasklistPage req) = true →
        ∃ cfg prule, req.rules = some cfg ∧ cfg.preSubmission.head? = some prule ∧
          r.outcome = Outcome.redirect
            (if jsStartsWith prule.toPath "/" then "/" ++ req.slug.getD "undefined" ++ prule.toPath
             else "/" ++ req.slug.getD "undefined" ++ "/" ++ prule.toPath)) := by
  have hguard : shouldHandlePreSubmission ctx.state.applicationStatus = true := by
    simp [shouldHandlePreSubmission, hprev]
  simp only [formsStatusCallback] at hres
  split at hres
  case h_1 heq =>
    obtain rfl := Option.some.inj hres
    have hf : isFormsStartPage req ctx = false := by
      simp [isFormsStartPage, heq]
    exact ⟨rfl, rfl, fun _ => rfl, fun hc => absurd hc (by simp [hf])⟩
  case h_2 ps hps =>
    split at hres
    case isTrue he =>
      obtain rfl := Option.some.inj hres
      have hf : isFormsStartPage req ctx = false := by
        simp only [isFormsStartPage, hps, he]
        cases ctx.paths.head? <;> simp
      exact ⟨rfl, rfl, fun _ => rfl, fun hc => absurd hc (by simp [hf])⟩
    case isFalse =>
      split at hres
      case isTrue => exact absurd hres (by simp)
      case isFalse =>
        cases hp : preSubmissionRedirect req ctx with
        | none => rw [hp] at hres; exact absurd hres (by simp)
        | some o =>
          rw [hp] at hres
          simp only [Option.map_some'] at hres
          obtain rfl := Option.some.inj hres
          exact ⟨rfl, rfl, fun hc => preSubmissionRedirect_cont_of_no_trigger req ctx o hc hp,
            fun hc => preSubmissionRedirect_redirect_of_trigger req ctx o hc hp⟩

/-- Witness for the amended claim C5: with REOPENED status, a saved answer
and a start-page request, the orchestrator redirects to the resume path
while calling neither GAS nor the write path. -/
theorem formsStatusCallback_reopened_witness :
    (⟨Outcome.redirect "/grant-a/check-selected-land-actions",
        PersistAction.noop, false, false⟩ : CallbackResult).persist = PersistAction.noop ∧
      (⟨Outcome.redirect "/grant-a/check-selected-land-actions",
        PersistAction.noop, false, false⟩ : CallbackResult).gasCalled = false ∧
      ((hasMeaningfulState reopenedContext.state && isFormsStartPage demoRequest reopenedContext &&
          !isTasklistPage demoRequest) = false →
        (⟨Outcome.redirect "/grant-a/check-selected-land-actions",
          PersistAction.noop, false, false⟩ : CallbackResult).outcome = Outcome.cont) ∧
      ((hasMeaningfulState reopenedContext.state && isFormsStartPage demoRequest reopenedContext &&
          !isTasklistPage demoRequest) = true →
        ∃ cfg prule, demoRequest.rules = some cfg ∧ cfg.preSubmission.head? = some prule ∧
          (⟨Outcome.redirect "/grant-a/check-selected-land-actions",
            PersistAction.noop, false, false⟩ : CallbackResult).outcome = Outcome.redirect
            (if jsStartsWith prule.toPath "/"
             then "/" ++ demoRequest.slug.getD "undefined" ++ prule.toPath
             else "/" ++ demoRequest.slug.getD "undefined" ++ "/" ++ prule.toPath)) :=
  formsStatusCallback_reopened "/agreement" (Except.ok "AWAITING_AMENDMENTS") demoRequest
    reopenedContext
    ⟨Outcome.redirect "/grant-a/check-selected-land-actions", PersistAction.noop, false, false⟩
    rfl (by decide)

/-- Claim C6: post-submission reconciliation is idempotent with respect to
the current path: when the matched rule's computed destination equals the
request's current path, `handlePostSubmission` returns continue instead of
redirecting. -/
theorem handlePostSubmission_idempotent (agreementsBase gasStatus : String)
    (req : Request) (previousStatus : String) (rules : Option GrantRedirectRules)
    (rule : RedirectRule)
    (hrule : mapStatusToUrl previousStatus gasStatus
      ((rules.map (·.postSubmission)).getD []) = some rule)
    (hpath : req.path = postRedirectUrl agreementsBase (req.slug.getD "undefined") rule.toPath) :
    ∃ act, handlePostSubmission agreementsBase (Except.ok gasStatus) req previousStatus rules =
      Except.ok (Outcome.cont, act) := by
  refine ⟨persistStatus rule.toGrantsStatus previousStatus req.sbi (req.slug.getD "undefined"), ?_⟩
  simp only [handlePostSubmission, hrule]
  split
  · rfl
  · simp [hpath]

/-- Witness for claim C6: a second reconciliation at
`/grant-a/confirmation` after GAS returns RECEIVED continues. -/
theorem handlePostSubmission_idempotent_witness :
    ∃ act, handlePostSubmission "/agreement" (Except.ok "RECEIVED")
      ⟨some "grant-a", "/grant-a/confirmation", "12345", some "grant-a-code", none,
        some ⟨[⟨"/check-selected-land-actions"⟩], demoRules⟩⟩
      "SUBMITTED" (some ⟨[⟨"/check-selected-land-actions"⟩], demoRules⟩) =
      Except.ok (Outcome.cont, act) :=
  handlePostSubmission_idempotent "/agreement" "RECEIVED" _ "SUBMITTED" _ ruleFallback
    (by decide) (by decide)

/-- Claim C7: startup validation rejects (throws, leaving no partial table
accepted) every configuration whose pre-submission list does not contain
exactly one rule, whose post-submission list is empty, or whose
post-submission list lacks a default/default fallback rule. -/
theorem validateGrantRedirectRules_rejects (preS : List PreRule) (postS : List RedirectRule)
    (h : preS.length ≠ 1 ∨ postS = [] ∨
      ∀ r ∈ postS, ¬(r.fromGrantsStatus = "default" ∧ r.gasStatus = "default")) :
    (validateGrantRedirectRules preS postS).isOk = false := by
  simp only [validateGrantRedirectRules]
  split
  · rfl
  case isFalse h1 =>
    split
    · rfl
    case isFalse h2 =>
      split
      · rfl
      case isFalse h3 =>
        split
        · rfl
        case isFalse h4 =>
          exfalso
          simp at h1 h3 h4
          rcases h with hlen | hpost | hall
          · exact hlen h1.2
          · subst hpost; simp at h3
          · obtain ⟨rr, hr, hda, hdb⟩ := h4
            exact hall rr hr ⟨hda, hdb⟩

/-- Witness for claim C7: a table whose only post-submission rule is not
default/default is rejected. -/
theorem validateGrantRedirectRules_rejects_witness :
    (validateGrantRedirectRules [⟨"/resume"⟩]
      [⟨"SUBMITTED", "default", "SUBMITTED", "/confirmation"⟩]).isOk = false :=
  validateGrantRedirectRules_rejects [⟨"/resume"⟩]
    [⟨"SUBMITTED", "default", "SUBMITTED", "/confirmation"⟩]
    (Or.inr (Or.inr (by decide)))

/-- Claim C8, counterexample: the guard does not redirect for every state
with a field beyond the reference-number/status bookkeeping fields: a state
holding only the `payment` key (with CLEARED status, at the start page of a
non-tasklist journey) is treated as not meaningful by the farm-payments
workaround, and the orchestrator continues where the claim demands a
redirect. -/
theorem presubmission_guard_spec_keys_counterexample :
    specMeaningfulState ⟨["applicationStatus", "payment"], true, some "CLEARED"⟩ = true ∧
    isFormsStartPage
      ⟨some "grant-a", "/grant-a/start", "12345", some "grant-a-code", none,
        some ⟨[⟨"/check-selected-land-actions"⟩], demoRules⟩⟩
      ⟨⟨["applicationStatus", "payment"], true, some "CLEARED"⟩, ["/start"], "REF-001"⟩ = true ∧
    isTasklistPage
      ⟨some "grant-a", "/grant-a/start", "12345", some "grant-a-code", none,
        some ⟨[⟨"/check-selected-land-actions"⟩], demoRules⟩⟩ = false ∧
    formsStatusCallback "/agreement" (Except.ok "RECEIVED")
      ⟨some "grant-a", "/grant-a/start", "12345", some "grant-a-code", none,
        some ⟨[⟨"/check-selected-land-actions"⟩], demoRules⟩⟩
      ⟨⟨["applicationStatus", "payment"], true, some "CLEARED"⟩, ["/start"], "REF-001"⟩ =
      some ⟨Outcome.cont, PersistAction.noop, false, false⟩ := by
  decide

/-- Claim C8, amended: for previous portal status unset, CLEARED or
REOPENED, the orchestrator delegates to the pre-submission guard and never
calls the GAS client nor the persistence write path; the guard redirects to
the slug-prefixed resume path exactly when the session state contains a key
outside the bookkeeping-plus-workaround set (reference number, application
status, applicant, selectedLandParcel, payment,
draftApplicationAnnualTotalPence, and landParcels when that object is empty
or absent), the request targets the journey's start page, and the journey
is not a tasklist; otherwise it continues. -/
theorem formsStatusCallback_presub_guard (agreementsBase : String)
    (gasResult : Except ErrJs String) (req : Request) (ctx : Context)
    (cfg : GrantRedirectRules) (prule : PreRule) (slug gc : String)
    (hslug : req.slug = some slug) (hs : slug ≠ "")
    (hgc : req.grantCode = some gc) (hgc2 : gc ≠ "")
    (hcfg : req.rules = some cfg) (hpre : cfg.preSubmission.head? = some prule)
    (hprev : shouldHandlePreSubmission ctx.state.applicationStatus = true) :
    formsStatusCallback agreementsBase gasResult req ctx =
      some ⟨if hasMeaningfulState ctx.state && isFormsStartPage req ctx && !isTasklistPage req
            then Outcome.redirect (if jsStartsWith prule.toPath "/" then "/" ++ slug ++ prule.toPath
                  else "/" ++ slug ++ "/" ++ prule.toPath)
            else Outcome.cont, PersistAction.noop, false, false⟩ := by
  simp only [formsStatusCallback, hslug, hgc, hprev, preSubmissionRedirect, hcfg, hpre]
  simp [hs, hgc2, hslug]
  split <;> rfl

/-- Witness for the amended claim C8: a CLEARED journey with a saved answer
at its start page is sent to the resume page. -/
theorem formsStatusCallback_presub_guard_witness :
    formsStatusCallback "/agreement" (Except.ok "RECEIVED")
      ⟨some "grant-a", "/grant-a/start", "12345", some "grant-a-code", none,
        some ⟨[⟨"/check-selected-land-actions"⟩], demoRules⟩⟩
      ⟨⟨["applicationStatus", "question"], true, some "CLEARED"⟩,
        ["/start", "/confirmation"], "REF-001"⟩ =
      some ⟨if hasMeaningfulState ⟨["applicationStatus", "question"], true, some "CLEARED"⟩ &&
              isFormsStartPage
                ⟨some "grant-a", "/grant-a/start", "12345", some "grant-a-code", none,
                  some ⟨[⟨"/check-selected-land-actions"⟩], demoRules⟩⟩
                ⟨⟨["applicationStatus", "question"], true, some "CLEARED"⟩,
                  ["/start", "/confirmation"], "REF-001"⟩ &&
              !isTasklistPage
                ⟨some "grant-a", "/grant-a/start", "12345", some "grant-a-code", none,
                  some ⟨[⟨"/check-selected-land-actions"⟩], demoRules⟩⟩
            then Outcome.redirect (if jsStartsWith "/check-selected-land-actions" "/"
                  then "/" ++ "grant-a" ++ "/check-selected-land-actions"
                  else "/" ++ "grant-a" ++ "/" ++ "/check-selected-land-actions")
            else Outcome.cont, PersistAction.noop, false, false⟩ :=
  formsStatusCallback_presub_guard "/agreement" (Except.ok "RECEIVED") _ _ _
    ⟨"/check-selected-land-actions"⟩ "grant-a" "grant-a-code"
    rfl (by decide) rfl (by decide) rfl rfl (by decide)

/-- Claim C9: every redirect URL produced by `handlePostSubmission` is the
matched rule's `toPath` taken verbatim when it equals the agreements base
URL, and otherwise the slug-prefixed form: `/slug` directly prepended when
the path starts with a slash and `/slug/` prepended when it does not. -/
theorem handlePostSubmission_redirect_shape (agreementsBase gasStatus : String)
    (req : Request) (previousStatus : String) (rules : Option GrantRedirectRules)
    (u : String) (act : PersistAction)
    (h : handlePostSubmission agreementsBase (Except.ok gasStatus) req previousStatus rules =
      Except.ok (Outcome.redirect u, act)) :
    ∃ rule, mapStatusToUrl previousStatus gasStatus
        ((rules.map (·.postSubmission)).getD []) = some rule ∧
      u = (if rule.toPath = agreementsBase then rule.toPath
           else if jsStartsWith rule.toPath "/" then "/" ++ req.slug.getD "undefined" ++ rule.toPath
           else "/" ++ req.slug.getD "undefined" ++ "/" ++ rule.toPath) := by
  cases hm : mapStatusToUrl previousStatus gasStatus ((rules.map (·.postSubmission)).getD []) with
  | none =>
    simp only [handlePostSubmission, hm] at h
    simp at h
  | some rule =>
    simp only [handlePostSubmission, hm] at h
    refine ⟨rule, rfl, ?_⟩
    by_cases hc : shouldContinueDefault gasStatus rule.toGrantsStatus previousStatus = true
    · simp [hc] at h
    · simp [hc] at h
      by_cases hp : req.path = postRedirectUrl agreementsBase (req.slug.getD "undefined") rule.toPath
      · simp [hp] at h
      · simp [hp] at h
        rw [← h.1]
        simp [postRedirectUrl, buildRedirectUrl]

/-- Witness for claim C9: the RECEIVED redirect from the start page goes to
the slug-prefixed confirmation page. -/
theorem handlePostSubmission_redirect_shape_witness :
    ∃ rule, mapStatusToUrl "SUBMITTED" "RECEIVED"
        ((demoRequest.rules.map (·.postSubmission)).getD []) = some rule ∧
      "/grant-a/confirmation" = (if rule.toPath = "/agreement" then rule.toPath
        else if jsStartsWith rule.toPath "/" then
          "/" ++ demoRequest.slug.getD "undefined" ++ rule.toPath
        else "/" ++ demoRequest.slug.getD "undefined" ++ "/" ++ rule.toPath) :=
  handlePostSubmission_redirect_shape "/agreement" "RECEIVED" demoRequest "SUBMITTED"
    demoRequest.rules "/grant-a/confirmation" PersistAction.noop (by rfl)

/-- Claim C10: on the reconciliation path the GAS call (and with it
`handlePostSubmission`) is reached only when the stored previous status is
SUBMITTED, and `shouldContinueDefault` is false for every GAS status and
new status once the previous status is SUBMITTED, so its two no-regression
branches never produce a continue during post-submission reconciliation. -/
theorem gasCalled_only_when_submitted (agreementsBase : String)
    (gasResult : Except ErrJs String) (req : Request) (ctx : Context) (r : CallbackResult)
    (hres : formsStatusCallback agreementsBase gasResult req ctx = some r)
    (hgas : r.gasCalled = true) :
    ctx.state.applicationStatus = some "SUBMITTED" ∧
      ∀ gasStatus newStatus, shouldContinueDefault gasStatus newStatus "SUBMITTED" = false := by
  refine ⟨?_, fun g n => by simp [shouldContinueDefault]⟩
  simp only [formsStatusCallback] at hres
  split at hres
  case h_1 =>
    obtain rfl := Option.some.inj hres
    exact absurd hgas (by decide)
  case h_2 ps hps =>
    split at hres
    case isTrue =>
      obtain rfl := Option.some.inj hres
      exact absurd hgas (by decide)
    case isFalse =>
      split at hres
      case isTrue => exact absurd hres (by simp)
      case isFalse =>
        split at hres
        case isTrue =>
          cases hp : preSubmissionRedirect req ctx with
          | none => rw [hp] at hres; exact absurd hres (by simp)
          | some o =>
            rw [hp] at hres
            simp only [Option.map_some'] at hres
            obtain rfl := Option.some.inj hres
            exact absurd hgas (by simp)
        case isFalse =>
          split at hres
          case h_1 heq =>
            obtain rfl := Option.some.inj hres
            exact absurd hgas (by decide)
          case h_2 ps2 heq2 =>
            split at hres
            case isTrue =>
              obtain rfl := Option.some.inj hres
              exact absurd hgas (by decide)
            case isFalse hnb =>
              have hps2 : ps2 = "SUBMITTED" := by simpa using hnb
              rw [heq2, hps2]

/-- Witness for claim C10, instantiated at a fixture run that does reach
the GAS call. -/
theorem gasCalled_only_when_submitted_witness :
    demoContext.state.applicationStatus = some "SUBMITTED" ∧
      shouldContinueDefault "AWAITING_AMENDMENTS" "REOPENED" "SUBMITTED" = false :=
  ⟨(gasCalled_only_when_submitted "/agreement" (Except.ok "RECEIVED") demoRequest demoContext
      ⟨Outcome.redirect "/grant-a/confirmation", PersistAction.noop, true, false⟩
      (by decide) rfl).1,
    (gasCalled_only_when_submitted "/agreement" (Except.ok "RECEIVED") demoRequest demoContext
      ⟨Outcome.redirect "/grant-a/confirmation", PersistAction.noop, true, false⟩
      (by decide) rfl).2 "AWAITING_AMENDMENTS" "REOPENED"⟩

end GrantsUi
